import Mathlib

/-!
Shallow embedding of the financial-chatbot frontend
(`src/frontend/app/page.tsx`), a single React component that manages chat
sessions in `localStorage` and talks to one backend endpoint.

Modelling conventions:
* React state (`sessions`, `currentSessionId`, `input`, `loading`) is the
  record `AppState`; each `setXxx` call becomes a functional state update.
* `localStorage` under the fixed key `STORAGE_SESSIONS_KEY` is modelled as
  `Storage := Option StoredBlob`.  `JSON.stringify` of a session array is
  modelled as the injection `StoredBlob.good`, and `JSON.parse` as its
  partial inverse: on the stringification of `xs` it returns `xs` (the JSON
  library round-trip contract for these plain record/array/string types),
  and on a string that is not valid JSON it throws, modelled by
  `StoredBlob.corrupt ↦ Except.error ()`.
* JavaScript truthiness is modelled explicitly where the code relies on it
  (`!currentSessionId`, `sessions[0]?.id || null`, `data.answer || ''`,
  `data.sources || []`).
* Strings are sequences of characters (`String.data : List Char`); the
  per-code-unit indexing `answer[i]` of the typing animation is modelled at
  character granularity.
* `fetch` outcomes are the inductive `FetchResult`: a 2xx response with an
  optional `answer`/`sources` JSON body, a non-ok status (the code throws
  `Error("Server error: " ++ status)`), or a rejected promise (transport
  error) carrying `some message` when the thrown value is an `Error` and
  `none` otherwise (the code then uses `'Unknown error'`).
* `sendMessage` returns, besides the final state, the ordered trace of
  states after every state update it performs, and the number of `fetch`
  calls it issued, so that the animation steps and the absence of retries
  are observable.
-/

namespace FinChat

/-- `role: 'user' | 'bot'` from the `Message` type. -/
inductive Role where
  | user
  | bot
deriving DecidableEq, Repr

/-- The `Message` record of `page.tsx` (lines 5–11): `time` and `sources`
are optional fields. -/
structure Message where
  id : String
  role : Role
  text : String
  time : Option String := none
  sources : Option (List String) := none
deriving DecidableEq, Repr

/-- The `ChatSession` record of `page.tsx` (lines 13–17). -/
structure ChatSession where
  id : String
  createdAt : String
  messages : List Message
deriving DecidableEq, Repr

/-- `const STORAGE_SESSIONS_KEY = 'finchat_sessions_v1'` (line 19). -/
def STORAGE_SESSIONS_KEY : String := "finchat_sessions_v1"

/-- The possible contents of the `localStorage` entry under
`STORAGE_SESSIONS_KEY`: either the `JSON.stringify` image of a session
array, or a string `JSON.parse` rejects. -/
inductive StoredBlob where
  | good : List ChatSession → StoredBlob
  | corrupt : StoredBlob
deriving DecidableEq, Repr

/-- `JSON.stringify(sessions)` (line 45), at the level of `StoredBlob`. -/
def jsonStringify (xs : List ChatSession) : StoredBlob := .good xs

/-- `JSON.parse(raw)` (line 37): returns the encoded array on the
stringification of an array, and throws on malformed content. -/
def jsonParse : StoredBlob → Except Unit (List ChatSession)
  | .good xs => .ok xs
  | .corrupt => .error ()

/-- The `localStorage` entry under `STORAGE_SESSIONS_KEY`
(`none` = no entry, i.e. `getItem` returns `null`). -/
abbrev Storage := Option StoredBlob

/-- The React state of the `Home` component (lines 27–30).
(`scrollRef` is presentation-only and omitted.) -/
structure AppState where
  sessions : List ChatSession
  currentSessionId : Option String
  input : String
  loading : Bool
deriving DecidableEq, Repr

/-- The `useState` initial values (lines 27–30): empty collection, no
active session, empty input, not loading. -/
def initialState : AppState :=
  { sessions := [], currentSessionId := none, input := "", loading := false }

/-- JavaScript truthiness of `string | null`: `null` and the empty string
are falsy. -/
def jsFalsyStr : Option String → Bool
  | none => true
  | some s => s = ""

/-- `x || null` for `x : string | undefined` (used at line 75 as
`sessions[0]?.id || null`): a missing or empty string becomes `null`. -/
def jsOrNullStr : Option String → Option String
  | none => none
  | some s => if s = "" then none else some s

/-- The load `useEffect` (lines 34–41): read the raw entry; when present,
`JSON.parse` it (NB: there is no try/catch, so a parse error propagates out
of the effect), install it with `setSessions`, and when non-empty select
the first session as active. -/
def loadSessionsEffect (storage : Storage) (st : AppState) :
    Except Unit AppState :=
  match storage with
  | none => .ok st
  | some raw =>
    match jsonParse raw with
    | .error e => .error e
    | .ok loaded =>
      .ok { st with
            sessions := loaded,
            currentSessionId :=
              match loaded with
              | [] => st.currentSessionId
              | l0 :: _ => some l0.id }

/-- The persist `useEffect` (lines 44–47): after every commit of
`sessions` (including the initial one), overwrite the storage entry with
`JSON.stringify(sessions)`. -/
def persistEffect (st : AppState) : Storage :=
  some (jsonStringify st.sessions)

/-- A fresh page load: first render with the initial state, then the two
effects run in declaration order.  The load effect determines the state;
the persist effect fires on the initial commit and again after the loaded
state commits, so the entry finally holds the stringification of the final
sessions value.  A parse error in the load effect propagates. -/
def mount (storage : Storage) : Except Unit (AppState × Storage) := do
  let st ← loadSessionsEffect storage initialState
  pure (st, persistEffect st)

/-- `startNewSession` (lines 52–60).  `Date.now().toString()` and
`nowIso()` are modelled as the parameters `newId` and `ts` supplied by the
environment (the clock). -/
def startNewSession (newId ts : String) (st : AppState) : AppState :=
  let newSession : ChatSession := { id := newId, createdAt := ts, messages := [] }
  { st with
    sessions := newSession :: st.sessions,
    currentSessionId := some newSession.id }

/-- `addMessage` (lines 63–69): map over the sessions, appending `msg` to
every session whose id strictly equals `currentSessionId`. -/
def addMessage (msg : Message) (st : AppState) : AppState :=
  { st with
    sessions := st.sessions.map fun s =>
      if some s.id = st.currentSessionId
      then { s with messages := s.messages ++ [msg] }
      else s }

/-- `deleteSession` (lines 72–77): filter the session out; when the deleted
id was active, set the active id to `sessions[0]?.id || null` — read from
the STALE `sessions` closure value, i.e. the list BEFORE the filter. -/
def deleteSession (sessionId : String) (st : AppState) : AppState :=
  { st with
    sessions := st.sessions.filter fun s => s.id != sessionId,
    currentSessionId :=
      if st.currentSessionId = some sessionId
      then jsOrNullStr (st.sessions.head?.map (fun s => s.id))
      else st.currentSessionId }

/-- `clearAllSessions` (lines 164–168), the synchronous body only: empty
the collection, clear the active id, `removeItem` the storage entry. -/
def clearAllSessions (st : AppState) (_storage : Storage) :
    AppState × Storage :=
  ({ st with sessions := [], currentSessionId := none }, none)

/-- `clearAllSessions` together with the state-change side effect it
triggers: the `sessions` state changed to `[]`, so the persist `useEffect`
(lines 44–47) fires and calls `setItem` with `JSON.stringify([])`,
re-creating the entry that `removeItem` just removed. -/
def clearAllWithEffects (st : AppState) (storage : Storage) :
    AppState × Storage :=
  let r := clearAllSessions st storage
  (r.1, persistEffect r.1)

/-- JavaScript `String.prototype.trim()` (line 81): remove leading and
trailing whitespace. -/
def jsTrim (s : String) : String :=
  ⟨((s.data.dropWhile Char.isWhitespace).reverse.dropWhile
      Char.isWhitespace).reverse⟩

/-- Outcome of the single `fetch` call in `sendMessage` (lines 93–98).
`ok` carries the optional `answer` and `sources` fields of the JSON body of
a 2xx response; `httpError` a non-ok status; `networkError` a rejected
promise, with `some msg` when the thrown value is an `Error`. -/
inductive FetchResult where
  | ok : Option String → Option (List String) → FetchResult
  | httpError : Nat → FetchResult
  | networkError : Option String → FetchResult
deriving DecidableEq, Repr

/-- First `n` characters of a string (`displayed` after `n` iterations of
`displayed += answer[i]`, line 107). -/
def strTake (s : String) (n : Nat) : String := ⟨s.data.take n⟩

/-- One `setSessions` of the typing-animation loop (lines 108–119): set
the text of message `botId` inside every session whose id equals
`currentSessionId` to `t`. -/
def updateBotText (cid : Option String) (botId : String) (t : String)
    (ss : List ChatSession) : List ChatSession :=
  ss.map fun s =>
    if some s.id = cid then
      { s with messages := s.messages.map fun m =>
          if m.id = botId then { m with text := t } else m }
    else s

/-- The final `setSessions` of `sendMessage` (success: lines 124–135 with
the full answer and the sources; failure: lines 138–151 with the error text
and `sources: []`): set text and sources of message `botId`. -/
def finalizeBot (cid : Option String) (botId : String) (t : String)
    (srcs : List String) (ss : List ChatSession) : List ChatSession :=
  ss.map fun s =>
    if some s.id = cid then
      { s with messages := s.messages.map fun m =>
          if m.id = botId then { m with text := t, sources := some srcs }
          else m }
    else s

/-- The states committed by the typing-animation loop (lines 105–121),
starting at loop index `i` with `fuel` iterations left: each step sets the
bot text to one more character of `answer`. -/
def revealAux (cid : Option String) (botId : String) (answer : String) :
    Nat → Nat → AppState → List AppState
  | 0, _, _ => []
  | fuel + 1, i, st =>
    let st' := { st with
      sessions := updateBotText cid botId (strTake answer (i + 1)) st.sessions }
    st' :: revealAux cid botId answer fuel (i + 1) st'

/-- The full animation trace: `answer.length` steps from index `0`. -/
def revealTrace (cid : Option String) (botId : String) (answer : String)
    (st : AppState) : List AppState :=
  revealAux cid botId answer answer.data.length 0 st

/-- Result of one `sendMessage` call: the ordered trace of states after
each state update, the final state, and how many `fetch` calls were
issued. -/
structure SendResult where
  trace : List AppState
  final : AppState
  fetchCount : Nat
deriving DecidableEq, Repr

/-- `sendMessage` (lines 80–155).  `uid`/`bid` are the two
`Date.now()`-derived message ids, `t1`/`t2` the two `nowIso()` timestamps,
and `fetch` the outcome of the single request.  Guard: `!text ||
!currentSessionId` (line 82).  Then: append the user message, clear the
input, set loading, append the empty bot placeholder, and dispatch on the
fetch outcome; `finally` clears loading. -/
def sendMessage (uid bid t1 t2 : String) (fetch : FetchResult)
    (st : AppState) : SendResult :=
  let text := jsTrim st.input
  if text = "" ∨ jsFalsyStr st.currentSessionId then
    { trace := [], final := st, fetchCount := 0 }
  else
    let cid := st.currentSessionId
    let userMsg : Message := { id := uid, role := .user, text := text, time := some t1 }
    let st1 := addMessage userMsg st
    let st2 := { st1 with input := "", loading := true }
    let botMsg : Message := { id := bid, role := .bot, text := "", time := some t2 }
    let st3 := addMessage botMsg st2
    match fetch with
    | .ok ans srcs =>
      let answer := ans.getD ""
      let sources := srcs.getD []
      let steps := revealTrace cid bid answer st3
      let stAnim := steps.getLastD st3
      let stFin := { stAnim with
        sessions := finalizeBot cid bid answer sources stAnim.sessions }
      let stDone := { stFin with loading := false }
      { trace := [st1, st2, st3] ++ steps ++ [stFin, stDone],
        final := stDone, fetchCount := 1 }
    | .httpError status =>
      let message := "Server error: " ++ toString status
      let stErr := { st3 with
        sessions := finalizeBot cid bid ("⚠️ Error: " ++ message) [] st3.sessions }
      let stDone := { stErr with loading := false }
      { trace := [st1, st2, st3, stErr, stDone],
        final := stDone, fetchCount := 1 }
    | .networkError errMsg =>
      let message := errMsg.getD "Unknown error"
      let stErr := { st3 with
        sessions := finalizeBot cid bid ("⚠️ Error: " ++ message) [] st3.sessions }
      let stDone := { stErr with loading := false }
      { trace := [st1, st2, st3, stErr, stDone],
        final := stDone, fetchCount := 1 }

/-! ## Helper lemmas about the per-session / per-message map updates -/

/-- A map whose function fixes every element of the list is the
identity. -/
theorem list_map_self {α : Type} (f : α → α) :
    ∀ l : List α, (∀ x ∈ l, f x = x) → l.map f = l
  | [], _ => rfl
  | a :: l, h => by
    rw [List.map_cons, h a (List.mem_cons_self a l),
      list_map_self f l fun x hx => h x (List.mem_cons_of_mem a hx)]

/-- Mapping an id-guarded update over a collection split around the unique
session with the active id updates exactly that session. -/
theorem map_activeSession_decomp (upd : ChatSession → ChatSession)
    (c : String) (pre post : List ChatSession) (act : ChatSession)
    (hact : act.id = c)
    (hpre : ∀ s ∈ pre, s.id ≠ c) (hpost : ∀ s ∈ post, s.id ≠ c) :
    (pre ++ act :: post).map
        (fun s => if some s.id = some c then upd s else s)
      = pre ++ upd act :: post := by
  rw [List.map_append, List.map_cons,
    list_map_self _ pre fun s hs => if_neg (by simpa using hpre s hs),
    if_pos (by simp [hact]),
    list_map_self _ post fun s hs => if_neg (by simpa using hpost s hs)]

/-- Mapping an id-guarded message update over `old ++ [u, b]` where only
`b` carries the bot id updates exactly `b`. -/
theorem map_botMessage_decomp (updm : Message → Message) (bid : String)
    (old : List Message) (u b : Message)
    (hold : ∀ m ∈ old, m.id ≠ bid) (hu : u.id ≠ bid) (hb : b.id = bid) :
    (old ++ [u, b]).map (fun m => if m.id = bid then updm m else m)
      = old ++ [u, updm b] := by
  rw [List.map_append,
    list_map_self _ old fun m hm => if_neg (hold m hm)]
  simp [hu, hb]

/-- `addMessage` on a state whose active id picks out exactly one session
appends the message to that session and leaves everything else
unchanged. -/
theorem addMessage_decomp (msg : Message) (c : String)
    (pre post : List ChatSession) (act : ChatSession) (st : AppState)
    (hc : st.currentSessionId = some c)
    (hs : st.sessions = pre ++ act :: post)
    (hact : act.id = c)
    (hpre : ∀ s ∈ pre, s.id ≠ c) (hpost : ∀ s ∈ post, s.id ≠ c) :
    addMessage msg st =
      { st with sessions :=
          pre ++ { act with messages := act.messages ++ [msg] } :: post } := by
  simp only [addMessage, hc, hs]
  rw [map_activeSession_decomp _ c pre post act hact hpre hpost]

/-- `updateBotText` on the decomposed shape rewrites exactly the bot
placeholder's text. -/
theorem updateBotText_decomp (c bid t : String)
    (pre post : List ChatSession) (act : ChatSession)
    (old : List Message) (u b : Message)
    (hact : act.id = c)
    (hpre : ∀ s ∈ pre, s.id ≠ c) (hpost : ∀ s ∈ post, s.id ≠ c)
    (hold : ∀ m ∈ old, m.id ≠ bid) (hu : u.id ≠ bid) (hb : b.id = bid) :
    updateBotText (some c) bid t
        (pre ++ { act with messages := old ++ [u, b] } :: post)
      = pre ++ { act with messages := old ++ [u, { b with text := t }] }
          :: post := by
  unfold updateBotText
  rw [map_activeSession_decomp _ c pre post
    { act with messages := old ++ [u, b] } hact hpre hpost,
    map_botMessage_decomp _ bid old u b hold hu hb]

/-- `finalizeBot` on the decomposed shape rewrites exactly the bot
placeholder's text and sources. -/
theorem finalizeBot_decomp (c bid t : String) (srcs : List String)
    (pre post : List ChatSession) (act : ChatSession)
    (old : List Message) (u b : Message)
    (hact : act.id = c)
    (hpre : ∀ s ∈ pre, s.id ≠ c) (hpost : ∀ s ∈ post, s.id ≠ c)
    (hold : ∀ m ∈ old, m.id ≠ bid) (hu : u.id ≠ bid) (hb : b.id = bid) :
    finalizeBot (some c) bid t srcs
        (pre ++ { act with messages := old ++ [u, b] } :: post)
      = pre ++ { act with
            messages := old ++ [u, { b with text := t, sources := some srcs }] }
          :: post := by
  unfold finalizeBot
  rw [map_activeSession_decomp _ c pre post
    { act with messages := old ++ [u, b] } hact hpre hpost,
    map_botMessage_decomp _ bid old u b hold hu hb]

/-- `strTake` over the whole string is the identity. -/
theorem strTake_length_self (s : String) : strTake s s.data.length = s := by
  unfold strTake
  rw [List.take_length s.data]

/-- The length of a `strTake` prefix within the string is exact. -/
theorem strTake_data_length (s : String) (n : Nat) (h : n ≤ s.data.length) :
    (strTake s n).data.length = n := by
  simp only [strTake]
  rw [List.length_take]
  omega

/-- `updateBotText` step form: with the bot message written out literally,
only its text field changes. -/
theorem updateBotText_step (c bid t0 t : String) (brole : Role)
    (btime : Option String) (bsrc : Option (List String))
    (pre post : List ChatSession) (act : ChatSession)
    (old : List Message) (u : Message)
    (hact : act.id = c)
    (hpre : ∀ s ∈ pre, s.id ≠ c) (hpost : ∀ s ∈ post, s.id ≠ c)
    (hold : ∀ m ∈ old, m.id ≠ bid) (hu : u.id ≠ bid) :
    updateBotText (some c) bid t
        (pre ++ { act with messages := old ++
            [u, { id := bid, role := brole, text := t0,
                  time := btime, sources := bsrc }] } :: post)
      = pre ++ { act with messages := old ++
            [u, { id := bid, role := brole, text := t,
                  time := btime, sources := bsrc }] } :: post :=
  updateBotText_decomp c bid t pre post act old u
    { id := bid, role := brole, text := t0, time := btime, sources := bsrc }
    hact hpre hpost hold hu rfl

/-- `finalizeBot` step form: with the bot message written out literally,
only its text and sources fields change. -/
theorem finalizeBot_step (c bid t0 t : String) (srcs : List String)
    (brole : Role) (btime : Option String) (bsrc : Option (List String))
    (pre post : List ChatSession) (act : ChatSession)
    (old : List Message) (u : Message)
    (hact : act.id = c)
    (hpre : ∀ s ∈ pre, s.id ≠ c) (hpost : ∀ s ∈ post, s.id ≠ c)
    (hold : ∀ m ∈ old, m.id ≠ bid) (hu : u.id ≠ bid) :
    finalizeBot (some c) bid t srcs
        (pre ++ { act with messages := old ++
            [u, { id := bid, role := brole, text := t0,
                  time := btime, sources := bsrc }] } :: post)
      = pre ++ { act with messages := old ++
            [u, { id := bid, role := brole, text := t,
                  time := btime, sources := some srcs }] } :: post :=
  finalizeBot_decomp c bid t srcs pre post act old u
    { id := bid, role := brole, text := t0, time := btime, sources := bsrc }
    hact hpre hpost hold hu rfl

/-- The animation loop commits exactly one state per remaining
character. -/
theorem revealAux_length (cid : Option String) (bid answer : String) :
    ∀ (fuel i : Nat) (st : AppState),
      (revealAux cid bid answer fuel i st).length = fuel
  | 0, _, _ => rfl
  | fuel + 1, i, st => by
    simp only [revealAux, List.length_cons]
    rw [revealAux_length cid bid answer fuel (i + 1)]

/-- The `j`-th state committed by the animation loop started at index `i`
has the bot text equal to the first `i + j + 1` characters of the answer,
and everything else unchanged. -/
theorem revealAux_spec (c bid answer : String) (brole : Role)
    (btime : Option String) (bsrc : Option (List String))
    (pre post : List ChatSession) (act : ChatSession)
    (old : List Message) (u : Message)
    (cs : Option String) (inp : String) (ld : Bool)
    (hact : act.id = c)
    (hpre : ∀ s ∈ pre, s.id ≠ c) (hpost : ∀ s ∈ post, s.id ≠ c)
    (hold : ∀ m ∈ old, m.id ≠ bid) (hu : u.id ≠ bid) :
    ∀ (fuel i : Nat) (t : String) (j : Nat), j < fuel →
      (revealAux (some c) bid answer fuel i
        { sessions := pre ++ { act with messages := old ++
            [u, { id := bid, role := brole, text := t,
                  time := btime, sources := bsrc }] } :: post,
          currentSessionId := cs, input := inp, loading := ld })[j]? =
      some { sessions := pre ++ { act with messages := old ++
            [u, { id := bid, role := brole,
                  text := strTake answer (i + j + 1),
                  time := btime, sources := bsrc }] } :: post,
             currentSessionId := cs, input := inp, loading := ld } := by
  intro fuel
  induction fuel with
  | zero => intro i t j hj; exact absurd hj (Nat.not_lt_zero j)
  | succ fuel ih =>
    intro i t j hj
    simp only [revealAux]
    rw [updateBotText_step c bid t (strTake answer (i + 1)) brole btime bsrc
      pre post act old u hact hpre hpost hold hu]
    cases j with
    | zero => simp
    | succ jj =>
      rw [List.getElem?_cons_succ]
      have harith : i + (jj + 1) + 1 = i + 1 + jj + 1 := by omega
      rw [harith]
      exact ih (i + 1) (strTake answer (i + 1)) jj (Nat.lt_of_succ_lt_succ hj)

/-- The last state committed by a non-empty animation loop run has the bot
text equal to the first `i + fuel` characters of the answer. -/
theorem revealAux_getLastD_any (c bid answer : String) (brole : Role)
    (btime : Option String) (bsrc : Option (List String))
    (pre post : List ChatSession) (act : ChatSession)
    (old : List Message) (u : Message)
    (cs : Option String) (inp : String) (ld : Bool)
    (hact : act.id = c)
    (hpre : ∀ s ∈ pre, s.id ≠ c) (hpost : ∀ s ∈ post, s.id ≠ c)
    (hold : ∀ m ∈ old, m.id ≠ bid) (hu : u.id ≠ bid) :
    ∀ (fuel i : Nat) (t : String),
      (revealAux (some c) bid answer fuel i
        { sessions := pre ++ { act with messages := old ++
            [u, { id := bid, role := brole, text := t,
                  time := btime, sources := bsrc }] } :: post,
          currentSessionId := cs, input := inp, loading := ld }).getLastD
        { sessions := pre ++ { act with messages := old ++
            [u, { id := bid, role := brole, text := t,
                  time := btime, sources := bsrc }] } :: post,
          currentSessionId := cs, input := inp, loading := ld } =
      { sessions := pre ++ { act with messages := old ++
            [u, { id := bid, role := brole,
                  text := if fuel = 0 then t else strTake answer (i + fuel),
                  time := btime, sources := bsrc }] } :: post,
        currentSessionId := cs, input := inp, loading := ld } := by
  intro fuel
  induction fuel with
  | zero => intro i t; simp [revealAux]
  | succ fuel ih =>
    intro i t
    simp only [revealAux]
    rw [updateBotText_step c bid t (strTake answer (i + 1)) brole btime bsrc
      pre post act old u hact hpre hpost hold hu]
    rw [List.getLastD_cons]
    rw [ih (i + 1) (strTake answer (i + 1))]
    by_cases hf : fuel = 0
    · subst hf
      norm_num
    · have harith : i + 1 + fuel = i + (fuel + 1) := by omega
      simp only [hf, if_false, harith]
      have hne : fuel + 1 ≠ 0 := by omega
      simp [hne]

/-! ## Claim theorems: persistence and session store -/

/-- Claim C1 counterexample: after `clearAllSessions` completes INCLUDING
the state-change side effect it triggers, the storage entry is NOT removed:
the persist `useEffect` fires on the `sessions := []` commit and re-creates
the entry with `JSON.stringify([])`.  Shown at a concrete one-session
state. -/
theorem clearAll_entry_repersisted :
    (clearAllWithEffects
      { sessions := [{ id := "1", createdAt := "t", messages := [] }],
        currentSessionId := some "1", input := "", loading := false }
      (some (jsonStringify [{ id := "1", createdAt := "t", messages := [] }]))).2
      = some (jsonStringify []) ∧
    (clearAllWithEffects
      { sessions := [{ id := "1", createdAt := "t", messages := [] }],
        currentSessionId := some "1", input := "", loading := false }
      (some (jsonStringify [{ id := "1", createdAt := "t", messages := [] }]))).2
      ≠ none := by
  exact ⟨rfl, fun h => Option.noConfusion h⟩

/-- Claim C1, amended: after `clearAll()` completes, the collection is
empty and the active id is `null`, and the synchronous `removeItem` does
remove the entry — but the persist effect triggered by the state change
immediately re-creates it holding the serialization of the empty
collection, so after all side effects the entry exists with
`JSON.stringify([])` rather than being absent. -/
theorem clearAll_amended_spec (st : AppState) (storage : Storage) :
    clearAllWithEffects st storage =
      ({ sessions := [], currentSessionId := none,
         input := st.input, loading := st.loading },
       some (jsonStringify [])) ∧
    (clearAllSessions st storage).2 = none :=
  ⟨rfl, rfl⟩

/-- Claim C2 (code bug), evaluated: deleting the active (and only) session
leaves the active id pointing at the DELETED session, because line 75 reads
`sessions[0]?.id` from the stale pre-deletion list.  The spec says the
active id should fall back to the first remaining session or to `null`;
here the collection becomes empty yet the active id stays `"1"`. -/
theorem deleteSession_stale_read_eval :
    deleteSession "1"
      { sessions := [{ id := "1", createdAt := "t", messages := [] }],
        currentSessionId := some "1", input := "", loading := false } =
      { sessions := [], currentSessionId := some "1",
        input := "", loading := false } := by
  decide

/-- Claim C3 counterexample: the load effect has no try/catch, so on
unparseable stored content `JSON.parse` throws and the error propagates out
of the effect (modelled as `Except.error`), instead of failing silently
with an empty collection. -/
theorem load_corrupt_raises :
    loadSessionsEffect (some StoredBlob.corrupt) initialState
      = .error () ∧
    mount (some StoredBlob.corrupt) = .error () :=
  ⟨rfl, rfl⟩

/-- Claim C3, amended: at startup the load effect installs the parsed
collection when the stored content parses (selecting the first session as
active when non-empty), does nothing when no entry exists, and — when the
stored content cannot be parsed — lets the `JSON.parse` exception propagate
out of the effect (there is no silent recovery). -/
theorem loadSessions_amended_spec (storage : Storage) (st : AppState) :
    (storage = none → loadSessionsEffect storage st = .ok st) ∧
    (∀ xs, storage = some (jsonStringify xs) →
      loadSessionsEffect storage st =
        .ok { st with
              sessions := xs,
              currentSessionId :=
                match xs with
                | [] => st.currentSessionId
                | x :: _ => some x.id }) ∧
    (storage = some StoredBlob.corrupt →
      loadSessionsEffect storage st = .error ()) := by
  refine ⟨fun h => ?_, fun xs h => ?_, fun h => ?_⟩ <;> subst h <;> rfl

/-- Witness for the amended C3 theorem at a concrete stored collection. -/
theorem loadSessions_amended_spec_witness :
    loadSessionsEffect
      (some (jsonStringify [{ id := "1", createdAt := "t", messages := [] }]))
      initialState =
      .ok { sessions := [{ id := "1", createdAt := "t", messages := [] }],
            currentSessionId := some "1", input := "", loading := false } :=
  (loadSessions_amended_spec _ initialState).2.1
    [{ id := "1", createdAt := "t", messages := [] }] rfl

/-- Claim C7: persisting a non-empty session collection and reloading it on
a fresh page load reproduces an identical collection (same ids, order and
message contents), with the first session selected as active. -/
theorem persist_load_roundTrip (st : AppState) (x0 : ChatSession)
    (rest : List ChatSession) (h : st.sessions = x0 :: rest) :
    mount (persistEffect st) =
      .ok ({ sessions := st.sessions, currentSessionId := some x0.id,
             input := "", loading := false },
           some (jsonStringify st.sessions)) := by
  simp [mount, persistEffect, loadSessionsEffect, jsonStringify, jsonParse,
    h, initialState]

/-- Witness for the round-trip theorem at a concrete two-session
collection. -/
theorem persist_load_roundTrip_witness :
    mount (persistEffect
      { sessions := [{ id := "2", createdAt := "t2", messages := [] },
                     { id := "1", createdAt := "t1",
                       messages := [{ id := "m", role := .user, text := "hi" }] }],
        currentSessionId := some "2", input := "", loading := true }) =
      .ok ({ sessions := [{ id := "2", createdAt := "t2", messages := [] },
                          { id := "1", createdAt := "t1",
                            messages := [{ id := "m", role := .user, text := "hi" }] }],
             currentSessionId := some "2", input := "", loading := false },
           some (jsonStringify
             [{ id := "2", createdAt := "t2", messages := [] },
              { id := "1", createdAt := "t1",
                messages := [{ id := "m", role := .user, text := "hi" }] }])) :=
  persist_load_roundTrip _ _ _ rfl

/-- Claim C8: `startNewSession` prepends a session with the supplied fresh
id, the current timestamp and no messages, and makes it active; when the
fresh id differs from all existing ids, id uniqueness of the collection is
preserved. -/
theorem startNewSession_spec (newId ts : String) (st : AppState) :
    (startNewSession newId ts st).sessions =
      { id := newId, createdAt := ts, messages := [] } :: st.sessions ∧
    (startNewSession newId ts st).currentSessionId = some newId ∧
    (startNewSession newId ts st).input = st.input ∧
    (startNewSession newId ts st).loading = st.loading ∧
    (newId ∉ st.sessions.map ChatSession.id →
      (st.sessions.map ChatSession.id).Nodup →
      ((startNewSession newId ts st).sessions.map ChatSession.id).Nodup) := by
  refine ⟨rfl, rfl, rfl, rfl, fun h1 h2 => ?_⟩
  have hmap : (startNewSession newId ts st).sessions.map ChatSession.id
      = newId :: st.sessions.map ChatSession.id := rfl
  rw [hmap]
  exact List.nodup_cons.mpr ⟨h1, h2⟩

/-- Witness for the `startNewSession` theorem at a concrete state. -/
theorem startNewSession_spec_witness :
    (startNewSession "2" "t2"
      { sessions := [{ id := "1", createdAt := "t1", messages := [] }],
        currentSessionId := some "1", input := "", loading := false }).sessions =
      [{ id := "2", createdAt := "t2", messages := [] },
       { id := "1", createdAt := "t1", messages := [] }] ∧
    (["2", "1"] : List String).Nodup := by
  refine ⟨(startNewSession_spec "2" "t2" _).1, ?_⟩
  have h := (startNewSession_spec "2" "t2"
    { sessions := [{ id := "1", createdAt := "t1", messages := [] }],
      currentSessionId := some "1", input := "", loading := false }).2.2.2.2
    (by decide) (by decide)
  exact h

/-- Claim C9: `sendMessage` is a no-op — no state update, no request —
whenever the trimmed input is empty or no active session exists. -/
theorem sendMessage_noop_spec (uid bid t1 t2 : String) (fetch : FetchResult)
    (st : AppState) (h : jsTrim st.input = "" ∨ st.currentSessionId = none) :
    sendMessage uid bid t1 t2 fetch st =
      { trace := [], final := st, fetchCount := 0 } := by
  unfold sendMessage
  rcases h with h | h
  · simp [h]
  · simp [h, jsFalsyStr]

/-- Witness for the no-op theorem: whitespace-only input. -/
theorem sendMessage_noop_spec_witness :
    sendMessage "10" "11" "t1" "t2" (.httpError 500)
      { sessions := [{ id := "1", createdAt := "t", messages := [] }],
        currentSessionId := some "1", input := "   ", loading := false } =
      { trace := [],
        final := { sessions := [{ id := "1", createdAt := "t", messages := [] }],
                   currentSessionId := some "1", input := "   ", loading := false },
        fetchCount := 0 } :=
  sendMessage_noop_spec "10" "11" "t1" "t2" (.httpError 500) _ (Or.inl (by decide))

/-- Claim C10: the persist effect always overwrites the storage entry with
exactly the serialization of the full current collection; it runs on the
initial commit (so an entry holding the serialized empty collection exists
after the first render even when nothing was persisted before), and on the
commit triggered by `clearAllSessions`. -/
theorem persist_serializes_every_commit :
    (∀ st : AppState, persistEffect st = some (jsonStringify st.sessions)) ∧
    mount none = .ok (initialState, some (jsonStringify [])) ∧
    (∀ (st : AppState) (storage : Storage),
      (clearAllWithEffects st storage).2 =
        some (jsonStringify (clearAllWithEffects st storage).1.sessions)) :=
  ⟨fun _ => rfl, rfl, fun _ _ => rfl⟩

/-- Claim C6: with an active session picking out exactly one session,
`addMessage` appends exactly that one message to the active session's list
(growing it by one, in call order) and leaves every other session — and all
remaining state — unchanged; with no active session, `addMessage` is a
no-op and the message is silently dropped. -/
theorem addMessage_spec (msg : Message) (st : AppState) :
    (st.currentSessionId = none → addMessage msg st = st) ∧
    (∀ (c : String) (pre post : List ChatSession) (act : ChatSession),
      st.currentSessionId = some c →
      st.sessions = pre ++ act :: post →
      act.id = c →
      (∀ s ∈ pre, s.id ≠ c) →
      (∀ s ∈ post, s.id ≠ c) →
      addMessage msg st =
        { st with sessions :=
            pre ++ { act with messages := act.messages ++ [msg] } :: post }) := by
  constructor
  · intro h
    simp only [addMessage, h]
    rw [list_map_self _ st.sessions fun s _ => if_neg (by simp), ← h]
  · intro c pre post act hc hs hact hpre hpost
    exact addMessage_decomp msg c pre post act st hc hs hact hpre hpost

/-- Witness for the `addMessage` theorem: a two-session collection where
only the active (second) session receives the message. -/
theorem addMessage_spec_witness :
    addMessage { id := "m1", role := .user, text := "hi" }
      { sessions := [{ id := "2", createdAt := "t2", messages := [] },
                     { id := "1", createdAt := "t1", messages := [] }],
        currentSessionId := some "1", input := "", loading := false } =
      { sessions := [{ id := "2", createdAt := "t2", messages := [] },
                     { id := "1", createdAt := "t1",
                       messages := [{ id := "m1", role := .user, text := "hi" }] }],
        currentSessionId := some "1", input := "", loading := false } :=
  (addMessage_spec { id := "m1", role := .user, text := "hi" } _).2
    "1" [{ id := "2", createdAt := "t2", messages := [] }] []
    { id := "1", createdAt := "t1", messages := [] }
    rfl rfl rfl (by decide) (by decide)

/-- Claim C5: on the failure path (non-2xx status or transport error), the
placeholder bot message's text is set to the visible error indicator
`⚠️ Error: …` carrying the failure reason (for a non-ok status, the message
`Server error: <status>` derived from the status code; for a transport
error, the thrown error's message, or `Unknown error` for a non-`Error`
value), its sources are set to the empty list, at most one request is
issued (no retry), and the `finally` block clears the loading flag for
every outcome. -/
theorem sendMessage_failure_spec (uid bid t1 t2 : String)
    (status : Nat) (emsg : String) (st : AppState) (c : String)
    (pre post : List ChatSession) (act : ChatSession)
    (hc : st.currentSessionId = some c) (hcne : c ≠ "")
    (ht : jsTrim st.input ≠ "")
    (hs : st.sessions = pre ++ act :: post) (hact : act.id = c)
    (hpre : ∀ s ∈ pre, s.id ≠ c) (hpost : ∀ s ∈ post, s.id ≠ c)
    (hbid : ∀ m ∈ act.messages, m.id ≠ bid) (hub : uid ≠ bid) :
    (sendMessage uid bid t1 t2 (.httpError status) st).final =
      { sessions := pre ++
          { act with messages := act.messages ++
              [{ id := uid, role := .user, text := jsTrim st.input,
                 time := some t1 },
               { id := bid, role := .bot,
                 text := "⚠️ Error: " ++ ("Server error: " ++ toString status),
                 time := some t2, sources := some [] }] } :: post,
        currentSessionId := some c, input := "", loading := false } ∧
    (sendMessage uid bid t1 t2 (.networkError (some emsg)) st).final =
      { sessions := pre ++
          { act with messages := act.messages ++
              [{ id := uid, role := .user, text := jsTrim st.input,
                 time := some t1 },
               { id := bid, role := .bot, text := "⚠️ Error: " ++ emsg,
                 time := some t2, sources := some [] }] } :: post,
        currentSessionId := some c, input := "", loading := false } ∧
    (sendMessage uid bid t1 t2 (.networkError none) st).final =
      { sessions := pre ++
          { act with messages := act.messages ++
              [{ id := uid, role := .user, text := jsTrim st.input,
                 time := some t1 },
               { id := bid, role := .bot,
                 text := "⚠️ Error: " ++ "Unknown error",
                 time := some t2, sources := some [] }] } :: post,
        currentSessionId := some c, input := "", loading := false } ∧
    (∀ fetch : FetchResult,
      (sendMessage uid bid t1 t2 fetch st).fetchCount ≤ 1) ∧
    (∀ fetch : FetchResult,
      (sendMessage uid bid t1 t2 fetch st).final.loading = false) := by
  have hcond : ¬(jsTrim st.input = "" ∨
      jsFalsyStr st.currentSessionId = true) := by
    rintro (h | h)
    · exact ht h
    · rw [hc] at h
      simp only [jsFalsyStr, decide_eq_true_eq] at h
      exact hcne h
  refine ⟨?_, ?_, ?_, ?_, ?_⟩
  · simp only [sendMessage]
    rw [if_neg hcond]
    simp only [addMessage, hc, hs]
    rw [map_activeSession_decomp _ c pre post act hact hpre hpost]
    rw [map_activeSession_decomp _ c pre post
      { act with messages := act.messages ++
          [{ id := uid, role := .user, text := jsTrim st.input,
             time := some t1 }] } hact hpre hpost]
    simp only [List.append_assoc, List.cons_append, List.nil_append]
    rw [finalizeBot_decomp c bid _ _ pre post act act.messages _ _
      hact hpre hpost hbid hub rfl]
  · simp only [sendMessage]
    rw [if_neg hcond]
    simp only [addMessage, hc, hs]
    rw [map_activeSession_decomp _ c pre post act hact hpre hpost]
    rw [map_activeSession_decomp _ c pre post
      { act with messages := act.messages ++
          [{ id := uid, role := .user, text := jsTrim st.input,
             time := some t1 }] } hact hpre hpost]
    simp only [List.append_assoc, List.cons_append, List.nil_append]
    rw [finalizeBot_decomp c bid _ _ pre post act act.messages _ _
      hact hpre hpost hbid hub rfl]
    simp
  · simp only [sendMessage]
    rw [if_neg hcond]
    simp only [addMessage, hc, hs]
    rw [map_activeSession_decomp _ c pre post act hact hpre hpost]
    rw [map_activeSession_decomp _ c pre post
      { act with messages := act.messages ++
          [{ id := uid, role := .user, text := jsTrim st.input,
             time := some t1 }] } hact hpre hpost]
    simp only [List.append_assoc, List.cons_append, List.nil_append]
    rw [finalizeBot_decomp c bid _ _ pre post act act.messages _ _
      hact hpre hpost hbid hub rfl]
    simp
  · intro fetch
    simp only [sendMessage]
    rw [if_neg hcond]
    cases fetch <;> exact Nat.le_refl 1
  · intro fetch
    simp only [sendMessage]
    rw [if_neg hcond]
    cases fetch <;> rfl

/-- Claim C4: on the success path, the answer read from the response
defaults to the empty string and the sources to the empty list when absent
(the `Option.getD` defaults below).  The placeholder bot message starts
with empty text (trace position 2), and each animation step `i` sets the
bot text to the first `i + 1` characters of the answer — one more
character per step — while changing nothing else (every other message,
session and state field is the same in the step's committed state).  The
final update sets the bot text exactly to the complete answer and attaches
the sources in order, and exactly one request is issued. -/
theorem sendMessage_success_reveal_spec (uid bid t1 t2 : String)
    (ans : Option String) (srcs : Option (List String))
    (st : AppState) (c : String)
    (pre post : List ChatSession) (act : ChatSession)
    (hc : st.currentSessionId = some c) (hcne : c ≠ "")
    (ht : jsTrim st.input ≠ "")
    (hs : st.sessions = pre ++ act :: post) (hact : act.id = c)
    (hpre : ∀ s ∈ pre, s.id ≠ c) (hpost : ∀ s ∈ post, s.id ≠ c)
    (hbid : ∀ m ∈ act.messages, m.id ≠ bid) (hub : uid ≠ bid) :
    (sendMessage uid bid t1 t2 (.ok ans srcs) st).fetchCount = 1 ∧
    (sendMessage uid bid t1 t2 (.ok ans srcs) st).trace.length =
      (ans.getD "").data.length + 5 ∧
    (sendMessage uid bid t1 t2 (.ok ans srcs) st).trace[2]? =
      some { sessions := pre ++ { act with messages := act.messages ++
               [{ id := uid, role := .user, text := jsTrim st.input,
                  time := some t1 },
                { id := bid, role := .bot, text := "", time := some t2 }] }
               :: post,
             currentSessionId := some c, input := "", loading := true } ∧
    (∀ i, i < (ans.getD "").data.length →
      (sendMessage uid bid t1 t2 (.ok ans srcs) st).trace[3 + i]? =
      some { sessions := pre ++ { act with messages := act.messages ++
               [{ id := uid, role := .user, text := jsTrim st.input,
                  time := some t1 },
                { id := bid, role := .bot,
                  text := strTake (ans.getD "") (i + 1),
                  time := some t2 }] } :: post,
             currentSessionId := some c, input := "", loading := true }) ∧
    (∀ i, i < (ans.getD "").data.length →
      (strTake (ans.getD "") (i + 1)).data.length = i + 1) ∧
    (sendMessage uid bid t1 t2 (.ok ans srcs) st).final =
      { sessions := pre ++ { act with messages := act.messages ++
          [{ id := uid, role := .user, text := jsTrim st.input,
             time := some t1 },
           { id := bid, role := .bot, text := ans.getD "", time := some t2,
             sources := some (srcs.getD []) }] } :: post,
        currentSessionId := some c, input := "", loading := false } := by
  have hcond : ¬(jsTrim st.input = "" ∨
      jsFalsyStr st.currentSessionId = true) := by
    rintro (h | h)
    · exact ht h
    · rw [hc] at h
      simp only [jsFalsyStr, decide_eq_true_eq] at h
      exact hcne h
  refine ⟨?_, ?_, ?_, ?_, ?_, ?_⟩
  · simp only [sendMessage]
    rw [if_neg hcond]
  · simp only [sendMessage]
    rw [if_neg hcond]
    simp only [revealTrace, List.length_append, List.length_cons,
      List.length_nil, revealAux_length]
    omega
  · simp only [sendMessage]
    rw [if_neg hcond]
    simp only [addMessage, hc, hs]
    rw [map_activeSession_decomp _ c pre post act hact hpre hpost]
    rw [map_activeSession_decomp _ c pre post
      { act with messages := act.messages ++
          [{ id := uid, role := .user, text := jsTrim st.input,
             time := some t1 }] } hact hpre hpost]
    simp only [List.append_assoc, List.cons_append, List.nil_append]
    have h2 : (2 : Nat) = 0 + 1 + 1 := by omega
    rw [h2]
    simp only [List.getElem?_cons_succ, List.getElem?_cons_zero]
  · intro i hi
    simp only [sendMessage]
    rw [if_neg hcond]
    simp only [addMessage, hc, hs, revealTrace]
    rw [map_activeSession_decomp _ c pre post act hact hpre hpost]
    rw [map_activeSession_decomp _ c pre post
      { act with messages := act.messages ++
          [{ id := uid, role := .user, text := jsTrim st.input,
             time := some t1 }] } hact hpre hpost]
    simp only [List.append_assoc, List.cons_append, List.nil_append]
    have hidx : 3 + i = i + 1 + 1 + 1 := by omega
    rw [hidx]
    simp only [List.getElem?_cons_succ]
    rw [List.getElem?_append_left (by
      rw [revealAux_length]
      exact hi)]
    have hspec := revealAux_spec c bid (ans.getD "") .bot (some t2) none
      pre post act act.messages
      { id := uid, role := .user, text := jsTrim st.input, time := some t1 }
      (some c) "" true hact hpre hpost hbid hub
      ((ans.getD "").data.length) 0 "" i hi
    simpa using hspec
  · intro i hi
    exact strTake_data_length (ans.getD "") (i + 1) (by omega)
  · simp only [sendMessage]
    rw [if_neg hcond]
    simp only [addMessage, hc, hs, revealTrace]
    rw [map_activeSession_decomp _ c pre post act hact hpre hpost]
    rw [map_activeSession_decomp _ c pre post
      { act with messages := act.messages ++
          [{ id := uid, role := .user, text := jsTrim st.input,
             time := some t1 }] } hact hpre hpost]
    simp only [List.append_assoc, List.cons_append, List.nil_append]
    rw [revealAux_getLastD_any c bid (ans.getD "") .bot (some t2) none
      pre post act act.messages
      { id := uid, role := .user, text := jsTrim st.input, time := some t1 }
      (some c) "" true hact hpre hpost hbid hub
      ((ans.getD "").data.length) 0 ""]
    dsimp only
    rw [finalizeBot_step c bid _ (ans.getD "") (srcs.getD []) .bot (some t2)
      none pre post act act.messages
      { id := uid, role := .user, text := jsTrim st.input, time := some t1 }
      hact hpre hpost hbid hub]

/-- Witness for the failure-path theorem: a 500 response on a one-session
state yields the error bot message with the status code and empty
sources. -/
theorem sendMessage_failure_spec_witness :
    (sendMessage "10" "11" "t1" "t2" (.httpError 500)
      { sessions := [{ id := "1", createdAt := "t", messages := [] }],
        currentSessionId := some "1", input := "What?", loading := false }).final =
      { sessions :=
          [{ id := "1", createdAt := "t",
             messages :=
               [{ id := "10", role := .user, text := "What?",
                  time := some "t1" },
                { id := "11", role := .bot,
                  text := "⚠️ Error: Server error: 500",
                  time := some "t2", sources := some [] }] }],
        currentSessionId := some "1", input := "", loading := false } := by
  have h := sendMessage_failure_spec "10" "11" "t1" "t2" 500 "boom"
    { sessions := [{ id := "1", createdAt := "t", messages := [] }],
      currentSessionId := some "1", input := "What?", loading := false }
    "1" [] [] { id := "1", createdAt := "t", messages := [] }
    rfl (by decide) (by decide) rfl rfl (by simp) (by simp) (by simp)
    (by decide)
  rw [h.1]
  decide

/-- Witness for the success-path theorem: answer `"ab"` with one source on
a one-session state; the first animation step shows `"a"`, and the final
state shows `"ab"` with the source attached. -/
theorem sendMessage_success_reveal_spec_witness :
    (sendMessage "10" "11" "t1" "t2"
      (.ok (some "ab") (some ["https://example.com"]))
      { sessions := [{ id := "1", createdAt := "t", messages := [] }],
        currentSessionId := some "1", input := "hi", loading := false }).trace[3]? =
      some { sessions :=
               [{ id := "1", createdAt := "t",
                  messages :=
                    [{ id := "10", role := .user, text := "hi",
                       time := some "t1" },
                     { id := "11", role := .bot, text := "a",
                       time := some "t2" }] }],
             currentSessionId := some "1", input := "", loading := true } ∧
    (sendMessage "10" "11" "t1" "t2"
      (.ok (some "ab") (some ["https://example.com"]))
      { sessions := [{ id := "1", createdAt := "t", messages := [] }],
        currentSessionId := some "1", input := "hi", loading := false }).final =
      { sessions :=
          [{ id := "1", createdAt := "t",
             messages :=
               [{ id := "10", role := .user, text := "hi",
                  time := some "t1" },
                { id := "11", role := .bot, text := "ab", time := some "t2",
                  sources := some ["https://example.com"] }] }],
        currentSessionId := some "1", input := "", loading := false } := by
  have h := sendMessage_success_reveal_spec "10" "11" "t1" "t2"
    (some "ab") (some ["https://example.com"])
    { sessions := [{ id := "1", createdAt := "t", messages := [] }],
      currentSessionId := some "1", input := "hi", loading := false }
    "1" [] [] { id := "1", createdAt := "t", messages := [] }
    rfl (by decide) (by decide) rfl rfl (by simp) (by simp) (by simp)
    (by decide)
  constructor
  · have h4 := h.2.2.2.1 0 (by decide)
    rw [show (3 : Nat) = 3 + 0 from rfl]
    rw [h4]
    decide
  · have h6 := h.2.2.2.2.2
    rw [h6]
    decide

end FinChat
